import Mathlib

/-!
# Verification of the feathers-google-datastore adapter

Shallow embedding of `src/index.js` (the Google Cloud Datastore adapter for
the Feathers framework).  JavaScript values that flow through the adapter are
modelled by the inductive `JSVal`; the adapter's behavioural configuration by
`AdapterConfig`; the credential-resolution result by `ResolvedConfig`.  Each
Lean definition mirrors one source function of the same name.
-/

namespace FeathersGDS

/-- A JavaScript value, as far as the adapter inspects values: `undefined`,
`null`, booleans, numbers, strings, arrays and plain objects (a list of own
properties).  Equality is structural; the source uses strict (in)equality
only on values where this coincides with JavaScript semantics, noted at each
use site. -/
inductive JSVal where
  | undefined
  | null
  | bool (b : Bool)
  | num (n : Int)
  | str (s : String)
  | arr (elems : List JSVal)
  | obj (fields : List (String × JSVal))

mutual

/-- Structural equality of modelled values.  It models JavaScript strict
equality `===`/`!==` at the adapter's use sites: the source compares only
strings, booleans and values returned unchanged from the configuration, where
reference equality and structural equality agree. -/
def JSVal.beq : JSVal → JSVal → Bool
  | .undefined, .undefined => true
  | .null, .null => true
  | .bool a, .bool b => a == b
  | .num a, .num b => a == b
  | .str a, .str b => a == b
  | .arr xs, .arr ys => JSVal.beqList xs ys
  | .obj xs, .obj ys => JSVal.beqFields xs ys
  | _, _ => false

/-- Elementwise `JSVal.beq` on arrays. -/
def JSVal.beqList : List JSVal → List JSVal → Bool
  | [], [] => true
  | x :: xs, y :: ys => JSVal.beq x y && JSVal.beqList xs ys
  | _, _ => false

/-- Fieldwise `JSVal.beq` on objects. -/
def JSVal.beqFields : List (String × JSVal) → List (String × JSVal) → Bool
  | [], [] => true
  | (k1, v1) :: xs, (k2, v2) :: ys =>
    k1 == k2 && JSVal.beq v1 v2 && JSVal.beqFields xs ys
  | _, _ => false

end

/-- JavaScript `typeof`. -/
def jsTypeof : JSVal → String
  | .undefined => "undefined"
  | .null => "object"
  | .bool _ => "boolean"
  | .num _ => "number"
  | .str _ => "string"
  | .arr _ => "object"
  | .obj _ => "object"

/-- JavaScript truthiness of a value (`if (v)`).  `NaN` does not occur in the
modelled value space, so a number is truthy iff non-zero. -/
def truthy : JSVal → Bool
  | .undefined => false
  | .null => false
  | .bool b => b
  | .num n => n != 0
  | .str s => s != ""
  | .arr _ => true
  | .obj _ => true

/-- Property access `v.name`.  Absent properties and property access on
non-objects yield `undefined`; the adapter only dereferences values it has
guarded with `typeof` checks, so the throwing cases (access on `undefined`
or `null`) are never reached on the paths modelled here. -/
def getField (v : JSVal) (name : String) : JSVal :=
  match v with
  | .obj fields =>
    match fields.find? (fun f => f.1 == name) with
    | some f => f.2
    | none => .undefined
  | _ => .undefined

/-- The source tests `typeof x != undefined` (the `undefined` VALUE, not the
string `"undefined"`).  A `typeof` result is a string and a string is never
loosely equal to `undefined`, so the test is constantly true whatever the
operand; the embedding keeps the conjunct to mirror the source. -/
def typeofNeverLooseEqUndefined (_t : String) : Bool :=
  true

/-- The adapter's behavioural configuration (`adapter.defaultKind`,
`adapter.allowKindOverwrite`, `adapter.defaultNamespace`,
`adapter.allowNamespaceOverwrite` in the source; the `false` initial values
are `JSVal.bool false`). -/
structure AdapterConfig where
  defaultKind : JSVal
  allowKindOverwrite : Bool
  defaultNamespace : JSVal
  allowNamespaceOverwrite : Bool

/-- Source `isValidKind(kind)`:
`typeof kind == "string" || (Array.isArray(kind) && kind.length)`.
The JavaScript expression returns the truthy/falsy value of `kind.length`
in the array case; the embedding returns its truthiness. -/
def isValidKind (kind : JSVal) : Bool :=
  jsTypeof kind == "string" || (match kind with
    | .arr elems => elems.length != 0
    | _ => false)

/-- Source `resolveKind(params)`: if `allowKindOverwrite` and
`typeof params.kind != undefined && isValidKind(params.kind)`, return
`params.kind`, else fall through to `adapter.defaultKind`. -/
def resolveKind (cfg : AdapterConfig) (params : JSVal) : JSVal :=
  if cfg.allowKindOverwrite then
    if typeofNeverLooseEqUndefined (jsTypeof (getField params "kind"))
        && isValidKind (getField params "kind") then
      getField params "kind"
    else
      cfg.defaultKind
  else
    cfg.defaultKind

/-- Source `resolveNamespace(params)`: if `allowNamespaceOverwrite` and
`typeof params.namespace != undefined && typeof params.namespace == "string"`,
return `params.namespace`, else fall through to `adapter.defaultNamespace`. -/
def resolveNamespace (cfg : AdapterConfig) (params : JSVal) : JSVal :=
  if cfg.allowNamespaceOverwrite then
    if typeofNeverLooseEqUndefined (jsTypeof (getField params "namespace"))
        && (jsTypeof (getField params "namespace") == "string") then
      getField params "namespace"
    else
      cfg.defaultNamespace
  else
    cfg.defaultNamespace

/-- Construction options recognised by the adapter factory (besides `model`).
Absent fields are `undefined`. -/
structure FactoryOptions where
  defaultKind : JSVal := .undefined
  allowKindOverwrite : JSVal := .undefined
  defaultNamespace : JSVal := .undefined
  allowNamespaceOverwrite : JSVal := .undefined

/-- The factory body, source lines 92-121: starting from the initial adapter
fields (all `false`), overwrite `defaultKind` when `isValidKind` accepts the
option, `defaultNamespace` when the option is a string, and set the two
override flags when the corresponding option is present and truthy.  The
`typeof options != "undefined"` guards hold because an options object is
supplied. -/
def mkAdapterConfig (o : FactoryOptions) : AdapterConfig :=
  { defaultKind :=
      if isValidKind o.defaultKind then o.defaultKind else .bool false
  , allowKindOverwrite :=
      (jsTypeof o.allowKindOverwrite != "undefined") && truthy o.allowKindOverwrite
  , defaultNamespace :=
      if jsTypeof o.defaultNamespace == "string" then o.defaultNamespace
      else .bool false
  , allowNamespaceOverwrite :=
      (jsTypeof o.allowNamespaceOverwrite != "undefined")
        && truthy o.allowNamespaceOverwrite }

/-- A datastore pre-key: source `resolvePreKey` returns either the bare
`path` array or the object `{namespace, path}`. -/
inductive PreKey where
  | path (p : List JSVal)
  | namespaced (ns : JSVal) (p : List JSVal)

/-- JavaScript `[].concat(kind, id)`: each argument that is an array is
spliced in elementwise (one level deep), any other argument is appended as a
single element. -/
def jsConcatArg (acc : List JSVal) (v : JSVal) : List JSVal :=
  match v with
  | .arr elems => acc ++ elems
  | x => acc ++ [x]

/-- Source `resolvePreKey(id, kind, params)`: compute the namespace via
`resolveNamespace`, build `path = [].concat(kind, id)`, and wrap the path in
`{namespace, path}` when the namespace is truthy. -/
def resolvePreKey (cfg : AdapterConfig) (id : JSVal) (kind : JSVal)
    (params : JSVal) : PreKey :=
  let ns := resolveNamespace cfg params
  let path := jsConcatArg (jsConcatArg [] kind) id
  if truthy ns then
    .namespaced ns path
  else
    .path path

/-- The error-context record built by `resolveErrorData`: `id` always,
`kind` and `query` only when their guards hold. -/
structure ErrorData where
  id : JSVal
  kind : Option JSVal
  query : Option JSVal

/-- JavaScript `v.hasOwnProperty()` with NO argument: the missing argument is
`undefined`, which is coerced to the property NAME `"undefined"`, so the call
tests for an own property literally called `"undefined"`.  On non-objects in
the modelled space it is `false`. -/
def hasOwnPropertyNoArg (v : JSVal) : Bool :=
  match v with
  | .obj fields => fields.any (fun f => f.1 == "undefined")
  | _ => false

/-- Source `resolveErrorData(id, kind, params)`: always record `id`; record
`kind` when `kind !== adapter.defaultKind`; record `query` when
`typeof params != "undefined" && typeof params.query != "undefined" &&
params.query.hasOwnProperty()`. -/
def resolveErrorData (cfg : AdapterConfig) (id : JSVal) (kind : JSVal)
    (params : JSVal) : ErrorData :=
  { id := id
  , kind := if JSVal.beq kind cfg.defaultKind then none else some kind
  , query :=
      if (jsTypeof params != "undefined")
          && (jsTypeof (getField params "query") != "undefined")
          && hasOwnPropertyNoArg (getField params "query") then
        some (getField params "query")
      else
        none }

/-- Decimal digit. -/
def isDecDigit (c : Char) : Bool :=
  ('0' ≤ c) && (c ≤ '9')

/-- Hexadecimal digit. -/
def isHexDigit (c : Char) : Bool :=
  isDecDigit c || (('a' ≤ c) && (c ≤ 'f')) || (('A' ≤ c) && (c ≤ 'F'))

/-- Octal digit. -/
def isOctDigit (c : Char) : Bool :=
  ('0' ≤ c) && (c ≤ '7')

/-- Binary digit. -/
def isBinDigit (c : Char) : Bool :=
  c == '0' || c == '1'

/-- ASCII whitespace stripped by JavaScript string-to-number coercion
(Unicode space characters are not modelled; the adapter's identifiers are
ASCII). -/
def isJsSpace (c : Char) : Bool :=
  c == ' ' || c == '\t' || c == '\n' || c == '\r'

/-- An optional sign followed by one or more decimal digits (the exponent
body of a JavaScript numeric literal). -/
def signedDigits (cs : List Char) : Bool :=
  let body := match cs with
    | '+' :: r => r
    | '-' :: r => r
    | r => r
  !body.isEmpty && body.all isDecDigit

/-- Either the end of the literal or an exponent part `[eE] [+-]? digits`. -/
def expOrEnd (cs : List Char) : Bool :=
  match cs with
  | [] => true
  | c :: rest => (c == 'e' || c == 'E') && signedDigits rest

/-- JavaScript `StrUnsignedDecimalLiteral`: `Infinity`, or digits with an
optional fraction and exponent where at least one digit appears around the
decimal point. -/
def strUnsignedDec (cs : List Char) : Bool :=
  if cs == "Infinity".toList then
    true
  else
    let s1 := cs.span isDecDigit
    match s1.2 with
    | '.' :: r2 =>
      let s2 := r2.span isDecDigit
      (!s1.1.isEmpty || !s2.1.isEmpty) && expOrEnd s2.2
    | _ => !s1.1.isEmpty && expOrEnd s1.2

/-- A decimal literal with an optional leading sign. -/
def strSignedDec (cs : List Char) : Bool :=
  match cs with
  | '+' :: r => strUnsignedDec r
  | '-' :: r => strUnsignedDec r
  | r => strUnsignedDec r

/-- JavaScript `StrNumericLiteral`: a signed decimal literal or an unsigned
`0x`/`0o`/`0b` radix literal. -/
def strNumericLiteral (cs : List Char) : Bool :=
  match cs with
  | '0' :: c :: rest =>
    if c == 'x' || c == 'X' then !rest.isEmpty && rest.all isHexDigit
    else if c == 'o' || c == 'O' then !rest.isEmpty && rest.all isOctDigit
    else if c == 'b' || c == 'B' then !rest.isEmpty && rest.all isBinDigit
    else strSignedDec ('0' :: c :: rest)
  | other => strSignedDec other

/-- `!isNaN(id)` for a string `id`: JavaScript coerces the string with
`ToNumber`, which trims whitespace, maps the empty remainder to `0` (not
`NaN`), and otherwise requires a numeric literal.  So the check succeeds iff
the trimmed string is empty or a well-formed numeric literal. -/
def isJsNumericString (s : String) : Bool :=
  let t := ((s.toList.dropWhile isJsSpace).reverse.dropWhile isJsSpace).reverse
  t.isEmpty || strNumericLiteral t

/-- The value produced by `datastore.int(id)`: the datastore client's
long-integer wrapper around the given literal. -/
structure DatastoreInt where
  value : String
  deriving DecidableEq, Repr

/-- Source `resolveId(id)`: when `!isNaN(id)` holds, wrap the identifier with
`datastore.int`; otherwise return the error string carrying the offending
literal.  The function is total (returns a tagged value, never raises). -/
def resolveId (id : String) : Sum DatastoreInt String :=
  if isJsNumericString id then
    .inl ⟨id⟩
  else
    .inr ("Invalid id format, should be a number e.g. 5634472569470976, provided: " ++ id)

/-- The process environment variables read by `resolveConfig`; an unset
variable is `undefined`, a set one is its string value. -/
structure Env where
  GCLOUD_PROJECT : JSVal := .undefined
  GOOGLE_APPLICATION_CREDENTIALS : JSVal := .undefined

/-- The `options.model` object handed to `resolveConfig`; absent fields are
`undefined`. -/
structure ModelOptions where
  projectId : JSVal := .undefined
  keyFilename : JSVal := .undefined
  credentials : JSVal := .undefined

/-- Result of `resolveConfig`: the sentinel `false` (no config) or the
config object built field by field; `keyFilename` and `credentials` are
`none` when the corresponding property was never assigned. -/
inductive ResolvedConfig where
  | noConfig
  | config (projectId : JSVal) (keyFilename : Option JSVal)
      (credentials : Option JSVal)

/-- Source `resolveConfig(options)` (identically `resolveDatastoreConfig` in
the later revision, lines 1108-1154): project id from `options.projectId`
(present and truthy) else `process.env.GCLOUD_PROJECT` (truthy) else bail
out; key file from `options.keyFilename` (present and truthy) else
`process.env.GOOGLE_APPLICATION_CREDENTIALS` (truthy); otherwise the explicit
credentials branch.  NOTE the source's credentials branch: after
`config.credentials = options.credentials;` the function falls through to an
unconditional `return false;` (line 419 resp. 1148), so BOTH arms of the
innermost `if` return `false` and the assignment is dead. -/
def resolveConfig (env : Env) (options : ModelOptions) : ResolvedConfig :=
  if (jsTypeof options.projectId != "undefined") && truthy options.projectId then
    resolveConfigCreds env options options.projectId
  else if truthy env.GCLOUD_PROJECT then
    resolveConfigCreds env options env.GCLOUD_PROJECT
  else
    .noConfig
where
  resolveConfigCreds (env : Env) (options : ModelOptions) (pid : JSVal) :
      ResolvedConfig :=
    if (jsTypeof options.keyFilename != "undefined") && truthy options.keyFilename then
      .config pid (some options.keyFilename) none
    else if truthy env.GOOGLE_APPLICATION_CREDENTIALS then
      .config pid (some env.GOOGLE_APPLICATION_CREDENTIALS) none
    else if (jsTypeof options.credentials != "undefined")
        && (jsTypeof (getField options.credentials "client_email") != "undefined")
        && (jsTypeof (getField options.credentials "private_key") != "undefined") then
      .noConfig
    else
      .noConfig

/-- The store client's response to `datastore.get(key)`: it either resolves
with an array of rows (rows may be `undefined`) or rejects. -/
inductive StoreResult where
  | ok (rows : List JSVal)
  | err

/-- Outcome of the `get` promise: resolution with the store result, or
rejection with a classified feathers error (`BadRequest`, `NotFound`,
`GeneralError`), each carrying a message and the error-context record. -/
inductive GetOutcome where
  | resolved (rows : List JSVal)
  | badRequest (msg : String) (data : ErrorData)
  | notFound (msg : String) (data : ErrorData)
  | generalError (msg : String) (data : ErrorData)

/-- `typeof v == "undefined"` on a row of the result array. -/
def isUndefined : JSVal → Bool
  | .undefined => true
  | _ => false

/-- Source `get(id, params)` as a function of the store client's response.
An invalid id rejects with `BadRequest` first (the source then still issues
the store call, but a promise is settled by its first `reject`, so later
`resolve`/`reject` calls are ignored).  With a valid id the outcome follows
the store response: resolve with the result array when
`result.length > 1 || (result.length == 1 && typeof result[0] != "undefined")`,
otherwise reject `NotFound`; on store rejection reject `GeneralError`.  The
error context is built from the RAW id (not the wrapped one). -/
def get (cfg : AdapterConfig) (id : String) (params : JSVal)
    (store : StoreResult) : GetOutcome :=
  match resolveId id with
  | .inr msg =>
    .badRequest msg (resolveErrorData cfg (.str id) (resolveKind cfg params) params)
  | .inl _ =>
    let kind := resolveKind cfg params
    match store with
    | .ok result =>
      if result.length > 1
          || ((result.length == 1) && !isUndefined (result.headD .undefined)) then
        .resolved result
      else
        .notFound "Requested entity does not exist."
          (resolveErrorData cfg (.str id) kind params)
    | .err =>
      .generalError "Datastore returned error while requesting entity."
        (resolveErrorData cfg (.str id) kind params)

/-- State-passing form of `resolveKind`: the source body only reads the
adapter object (no assignment), so the configuration component of the result
is the input configuration. -/
def resolveKindSt (cfg : AdapterConfig) (params : JSVal) :
    JSVal × AdapterConfig :=
  (resolveKind cfg params, cfg)

/-- State-passing form of `resolveNamespace` (no assignment in the body). -/
def resolveNamespaceSt (cfg : AdapterConfig) (params : JSVal) :
    JSVal × AdapterConfig :=
  (resolveNamespace cfg params, cfg)

/-- State-passing form of `resolvePreKey` (no assignment in the body). -/
def resolvePreKeySt (cfg : AdapterConfig) (id : JSVal) (kind : JSVal)
    (params : JSVal) : PreKey × AdapterConfig :=
  (resolvePreKey cfg id kind params, cfg)

/-- Is the value a non-empty string?  Used to state when `resolvePreKey`
wraps its path in a namespace object. -/
def nsNonemptyString : JSVal → Bool
  | .str s => s != ""
  | _ => false

/-- Shape predicate for claim C7: the resolution result is the no-config
sentinel, or carries a project id together with exactly one of a key-file
name or a credentials object. -/
def configShapeOK : ResolvedConfig → Bool
  | .noConfig => true
  | .config _ kf cr => kf.isSome != cr.isSome

/-- The credentials field of a resolution result, if any. -/
def credentialsOf : ResolvedConfig → Option JSVal
  | .noConfig => none
  | .config _ _ cr => cr

/-- Spec-worded predicate for claim C3: a non-empty string of decimal
digits. -/
def isDecimalDigitString (s : String) : Bool :=
  (s != "") && s.toList.all isDecDigit

/-- A `typeof` result of `"string"` pins the value down to a string. -/
theorem jsTypeof_string_shape (v : JSVal) (h : jsTypeof v = "string") :
    ∃ s, v = .str s := by
  cases v <;> simp [jsTypeof] at h ⊢

/-- The default namespace of a factory-built configuration is the initial
`false` or a string. -/
theorem mkAdapterConfig_defaultNamespace_shape (o : FactoryOptions) :
    (mkAdapterConfig o).defaultNamespace = .bool false ∨
    ∃ s, (mkAdapterConfig o).defaultNamespace = .str s := by
  have hd : (mkAdapterConfig o).defaultNamespace =
      (if jsTypeof o.defaultNamespace == "string" then o.defaultNamespace
       else .bool false) := rfl
  rw [hd]
  split
  case isTrue h =>
    exact .inr (jsTypeof_string_shape _ (by simpa using h))
  case isFalse h =>
    exact .inl rfl

/-- Whatever the request parameters, a factory-built adapter resolves the
namespace to the initial `false` or to a string. -/
theorem resolveNamespace_shape (o : FactoryOptions) (params : JSVal) :
    resolveNamespace (mkAdapterConfig o) params = .bool false ∨
    ∃ s, resolveNamespace (mkAdapterConfig o) params = .str s := by
  unfold resolveNamespace
  split
  · split
    case isTrue h =>
      have h2 : jsTypeof (getField params "namespace") = "string" := by
        simp [typeofNeverLooseEqUndefined] at h
        simpa using h
      exact .inr (jsTypeof_string_shape _ h2)
    case isFalse h =>
      exact mkAdapterConfig_defaultNamespace_shape o
  · exact mkAdapterConfig_defaultNamespace_shape o

/-- The credential-source step of `resolveConfig` returns the no-config
sentinel or a config carrying the given project id and a key-file name and
no credentials (both arms of the explicit-credentials branch bail out). -/
theorem resolveConfigCreds_shape (env : Env) (options : ModelOptions)
    (pid : JSVal) :
    resolveConfig.resolveConfigCreds env options pid = .noConfig ∨
    ∃ kf, resolveConfig.resolveConfigCreds env options pid =
      .config pid (some kf) none := by
  unfold resolveConfig.resolveConfigCreds
  split
  · exact .inr ⟨_, rfl⟩
  · split
    · exact .inr ⟨_, rfl⟩
    · split
      · exact .inl rfl
      · exact .inl rfl

/-- `resolveConfig` returns the no-config sentinel or a config with a
key-file name and no credentials. -/
theorem resolveConfig_shape (env : Env) (options : ModelOptions) :
    resolveConfig env options = .noConfig ∨
    ∃ pid kf, resolveConfig env options = .config pid (some kf) none := by
  unfold resolveConfig
  split
  · rcases resolveConfigCreds_shape env options options.projectId with h | ⟨kf, h⟩
    · exact .inl h
    · exact .inr ⟨_, kf, h⟩
  · split
    · rcases resolveConfigCreds_shape env options env.GCLOUD_PROJECT with h | ⟨kf, h⟩
      · exact .inl h
      · exact .inr ⟨_, kf, h⟩
    · exact .inl rfl

/-- Claim C1 (code bug): the claim says that with a truthy explicit
`projectId`, no `keyFilename`, an unset `GOOGLE_APPLICATION_CREDENTIALS`
environment variable and a credentials object carrying both sub-fields,
`resolveConfig` returns `{projectId, credentials}`.  The source instead
reaches an unconditional `return false` placed directly after
`config.credentials = options.credentials;`, so the call returns the
no-config sentinel at exactly this input, contradicting both the claim and
the adjacent debug message about using the provided credentials. -/
theorem C1_full_credentials_still_noConfig :
    resolveConfig {}
      { projectId := .str "my-project"
      , credentials := .obj [("client_email", .str "svc-account-email"),
          ("private_key", .str "PRIVATE-KEY-PEM")] } = .noConfig := rfl

/-- Claim C3 counterexample: the claim says `resolveId` returns an
invalid-format error exactly when the id is NOT a decimal digit string.
The string `"12.5"` is not a decimal digit string, yet the check
`!isNaN(id)` accepts it and `resolveId` returns the wrapped id instead of
an error. -/
theorem C3_not_only_decimal_digit_strings :
    ¬ (∀ id : String, isDecimalDigitString id = false →
        ∃ msg, resolveId id = .inr msg) := by
  intro h
  rcases h "12.5" (by decide) with ⟨msg, hmsg⟩
  have hval : resolveId "12.5" = .inl ⟨"12.5"⟩ := by decide
  rw [hval] at hmsg
  exact Sum.noConfusion hmsg

/-- Claim C3 (amended): `resolveId` returns the invalid-format error string
containing the offending literal exactly when the id fails the JavaScript
numeric coercion `!isNaN(id)` (rather than exactly when it is not a decimal
digit string), and otherwise returns the long-integer wrapper of the
literal; in particular `resolveId "abc"` is the error containing `"abc"`
and `resolveId "123"` wraps `123`.  The function is total, so it never
raises. -/
theorem C3_resolveId_amended (id : String) :
    (match resolveId id with
     | .inl v => isJsNumericString id = true ∧ v = ⟨id⟩
     | .inr msg => isJsNumericString id = false ∧
         msg = "Invalid id format, should be a number e.g. 5634472569470976, provided: "
           ++ id)
    ∧ resolveId "abc" =
        .inr "Invalid id format, should be a number e.g. 5634472569470976, provided: abc"
    ∧ resolveId "123" = .inl ⟨"123"⟩ := by
  refine ⟨?_, by decide, by decide⟩
  cases h : isJsNumericString id
  · simp [resolveId, h]
  · simp [resolveId, h]

/-- Claim C4: `resolveKind` returns `params.kind` exactly when
`allowKindOverwrite` is set and `params.kind` passes `isValidKind`, and the
configured default kind otherwise; in particular with
`allowKindOverwrite = false` and `params.kind = "Other"` the configured
default is returned, ignoring the parameters. -/
theorem C4_resolveKind_override_gate (cfg : AdapterConfig) (params : JSVal) :
    resolveKind cfg params =
      (if cfg.allowKindOverwrite && isValidKind (getField params "kind") then
        getField params "kind"
      else cfg.defaultKind)
    ∧ resolveKind (mkAdapterConfig { defaultKind := .str "Thing" })
        (.obj [("kind", .str "Other")]) = .str "Thing" := by
  constructor
  · unfold resolveKind
    cases cfg.allowKindOverwrite <;> simp [typeofNeverLooseEqUndefined]
  · rfl

/-- Claim C5 (code bug): the claim says the error context contains the
query exactly when `params.query` is a non-empty mapping.  The source
guard calls `params.query.hasOwnProperty()` with no argument, which tests
for an own property literally named `"undefined"`; for the non-empty query
`{a: 1}` the guard is false and the context omits the query, contradicting
the claim (the id and default-kind clauses behave as claimed at this
input). -/
theorem C5_nonempty_query_dropped :
    resolveErrorData (mkAdapterConfig {}) (.str "5634472569470976")
        (mkAdapterConfig {}).defaultKind
        (.obj [("query", .obj [("a", .num 1)])]) =
      { id := .str "5634472569470976", kind := none, query := none } := rfl

/-- Claim C2: for a validly formatted id, `get` rejects as not-found with a
context carrying the id when the store resolves with `[]` or `[undefined]`,
resolves with the store result when it has more than one element or exactly
one defined element, and rejects as a general error when the store client
rejects. -/
theorem C2_get_outcome_classification (cfg : AdapterConfig) (id : String)
    (params : JSVal) (hid : isJsNumericString id = true) :
    (get cfg id params (.ok []) =
      .notFound "Requested entity does not exist."
        (resolveErrorData cfg (.str id) (resolveKind cfg params) params))
    ∧ (get cfg id params (.ok [.undefined]) =
      .notFound "Requested entity does not exist."
        (resolveErrorData cfg (.str id) (resolveKind cfg params) params))
    ∧ (∀ rows : List JSVal,
        rows.length > 1 ∨ (∃ e, rows = [e] ∧ isUndefined e = false) →
        get cfg id params (.ok rows) = .resolved rows)
    ∧ (get cfg id params .err =
      .generalError "Datastore returned error while requesting entity."
        (resolveErrorData cfg (.str id) (resolveKind cfg params) params))
    ∧ (resolveErrorData cfg (.str id) (resolveKind cfg params) params).id =
        .str id := by
  refine ⟨?_, ?_, ?_, ?_, rfl⟩
  · simp [get, resolveId, hid, isUndefined]
  · simp [get, resolveId, hid, isUndefined]
  · intro rows hrows
    rcases hrows with h | ⟨e, rfl, he⟩
    · simp [get, resolveId, hid, h]
    · simp [get, resolveId, hid, he]
  · simp [get, resolveId, hid]

/-- Witness for C2 at a concrete configuration, id `"123"`, empty params
and an empty store result. -/
theorem C2_get_outcome_classification_witness :
    get (mkAdapterConfig {}) "123" (.obj []) (.ok []) =
      .notFound "Requested entity does not exist."
        (resolveErrorData (mkAdapterConfig {}) (.str "123")
          (resolveKind (mkAdapterConfig {}) (.obj [])) (.obj [])) :=
  (C2_get_outcome_classification (mkAdapterConfig {}) "123" (.obj [])
    (by decide)).1

/-- Claim C6: `resolvePreKey` concatenates the kind (spliced elementwise
when it is an array) with the id, wraps the path in `{namespace, path}`
exactly when the resolved namespace is a non-empty string, and returns the
bare path otherwise; in particular with no configured namespace,
`resolvePreKey "5634472569470976" "Tag" {}` is the flat path
`["Tag", "5634472569470976"]`, and an array kind is spliced, not nested. -/
theorem C6_resolvePreKey_shape (o : FactoryOptions) (id kind params : JSVal) :
    (resolvePreKey (mkAdapterConfig o) id kind params =
      (let ns := resolveNamespace (mkAdapterConfig o) params
       let path := jsConcatArg (jsConcatArg [] kind) id
       if nsNonemptyString ns then .namespaced ns path else .path path))
    ∧ resolvePreKey (mkAdapterConfig {}) (.str "5634472569470976")
        (.str "Tag") (.obj []) =
        .path [.str "Tag", .str "5634472569470976"]
    ∧ resolvePreKey (mkAdapterConfig {}) (.str "9")
        (.arr [.str "Grand", .str "Parent"]) (.obj []) =
        .path [.str "Grand", .str "Parent", .str "9"] := by
  refine ⟨?_, rfl, rfl⟩
  unfold resolvePreKey
  rcases resolveNamespace_shape o params with h | ⟨s, h⟩ <;>
    rw [h] <;> simp [truthy, nsNonemptyString]

/-- Claim C7: `resolveConfig` never returns a partially populated object:
the result is the no-config sentinel or carries a project id plus exactly
one of a key-file name or a credentials object. -/
theorem C7_config_never_partial (env : Env) (options : ModelOptions) :
    configShapeOK (resolveConfig env options) = true := by
  rcases resolveConfig_shape env options with h | ⟨pid, kf, h⟩ <;>
    rw [h] <;> rfl

/-- Claim C9: a successful `resolveConfig` result never carries a
credentials field: the explicit-credentials fallback branch always ends in
the no-config bailout, so the only successful shape is a project id with a
key-file name. -/
theorem C9_no_credentials_ever (env : Env) (options : ModelOptions) :
    credentialsOf (resolveConfig env options) = none
    ∧ (resolveConfig env options = .noConfig ∨
       ∃ pid kf, resolveConfig env options = .config pid (some kf) none) := by
  rcases resolveConfig_shape env options with h | ⟨pid, kf, h⟩
  · rw [h]; exact ⟨rfl, .inl rfl⟩
  · rw [h]; exact ⟨rfl, .inr ⟨pid, kf, rfl⟩⟩

/-- Claim C8: when both override flags are off, the resolvers are
independent of the request parameters: any two params values give equal
results for `resolveKind`, `resolveNamespace` and `resolvePreKey`, so
callers cannot influence which key is addressed. -/
theorem C8_params_cannot_redirect (cfg : AdapterConfig) (id kind p1 p2 : JSVal)
    (hk : cfg.allowKindOverwrite = false)
    (hn : cfg.allowNamespaceOverwrite = false) :
    resolveKind cfg p1 = resolveKind cfg p2
    ∧ resolveNamespace cfg p1 = resolveNamespace cfg p2
    ∧ resolvePreKey cfg id kind p1 = resolvePreKey cfg id kind p2 := by
  refine ⟨?_, ?_, ?_⟩
  · simp [resolveKind, hk]
  · simp [resolveNamespace, hn]
  · simp [resolvePreKey, resolveNamespace, hn]

/-- Witness for C8: the factory defaults leave both flags off, and a params
object carrying both a kind and a namespace changes nothing against empty
params. -/
theorem C8_params_cannot_redirect_witness :
    resolveKind (mkAdapterConfig {})
        (.obj [("kind", .str "Other"), ("namespace", .str "NS1")]) =
      resolveKind (mkAdapterConfig {}) (.obj [])
    ∧ resolveNamespace (mkAdapterConfig {})
        (.obj [("kind", .str "Other"), ("namespace", .str "NS1")]) =
      resolveNamespace (mkAdapterConfig {}) (.obj [])
    ∧ resolvePreKey (mkAdapterConfig {}) (.str "1") (.str "Tag")
        (.obj [("kind", .str "Other"), ("namespace", .str "NS1")]) =
      resolvePreKey (mkAdapterConfig {}) (.str "1") (.str "Tag") (.obj []) :=
  C8_params_cannot_redirect (mkAdapterConfig {}) (.str "1") (.str "Tag")
    (.obj [("kind", .str "Other"), ("namespace", .str "NS1")]) (.obj [])
    rfl rfl

/-- Claim C10: the three resolvers are pure with respect to the adapter
state: in state-passing form each call leaves the configuration unchanged,
and a second call with identical inputs returns the identical result. -/
theorem C10_resolvers_pure (cfg : AdapterConfig) (id kind params : JSVal) :
    ((resolveKindSt cfg params).2 = cfg
      ∧ resolveKindSt (resolveKindSt cfg params).2 params =
          resolveKindSt cfg params)
    ∧ ((resolveNamespaceSt cfg params).2 = cfg
      ∧ resolveNamespaceSt (resolveNamespaceSt cfg params).2 params =
          resolveNamespaceSt cfg params)
    ∧ ((resolvePreKeySt cfg id kind params).2 = cfg
      ∧ resolvePreKeySt (resolvePreKeySt cfg id kind params).2 id kind params =
          resolvePreKeySt cfg id kind params) :=
  ⟨⟨rfl, rfl⟩, ⟨rfl, rfl⟩, ⟨rfl, rfl⟩⟩

end FeathersGDS
